import Mathlib

/-!
Verification of the psi-collect repository against its natural-language
specification.

The development shallowly embeds the four Python source files:

* `src/src/python/Poststorm_Imagery/assigner/image_ref.py` — the per-image
  tag store (`Image.add_tag`, `Image.remove_tag`, `Image.update_tag`,
  `Image.save`, `Image._sum_tag_values_by_users`, `Image.all_user_tags_equal`,
  `NotEnoughTaggersError`);
* `src/src/collector/ConnectionHandler.py` — the storm-catalog listing with
  its memoization on the last search pattern;
* `src/src/tagger/Tar.py` — the archive download step.

Python dictionaries are embedded as insertion-ordered association lists
(`dget` / `dset` / `dmem` below mirror subscript read, subscript write and
the `in` operator).  Python exceptions are embedded with `Except`.  The
embedding keeps the observable behavior of the source, including its bugs:
the `('true' or 'false')` short-circuit in `add_tag`, the
`for tag, value in dict` key-unpacking in `_sum_tag_values_by_users`, the
class-level (hence shared) `skippers` / `taggers` attributes, and the
shallow `.copy()` in `save`.
-/

set_option autoImplicit false

namespace PsiCollect

section Dict

variable {κ : Type} {α : Type} [DecidableEq κ]

/-- Subscript read `d[k]` of a Python dict, as an insertion-ordered
association list: `none` models a `KeyError`. -/
def dget : List (κ × α) → κ → Option α
  | [], _ => none
  | (k, v) :: rest, key => if k = key then some v else dget rest key

/-- Subscript write `d[k] = v` of a Python dict: an existing key keeps its
position and gets the new value, a new key is appended at the end. -/
def dset : List (κ × α) → κ → α → List (κ × α)
  | [], key, val => [(key, val)]
  | (k, v) :: rest, key, val =>
    if k = key then (k, val) :: rest else (k, v) :: dset rest key val

/-- The Python `key in d` test. -/
def dmem (d : List (κ × α)) (key : κ) : Bool :=
  (dget d key).isSome

/-- The Python `d.keys()` view, in insertion order. -/
def dkeys (d : List (κ × α)) : List κ :=
  d.map Prod.fst

theorem dget_dset_self (d : List (κ × α)) (k : κ) (v : α) :
    dget (dset d k v) k = some v := by
  induction d with
  | nil => simp [dset, dget]
  | cons hd tl ih =>
    obtain ⟨k', v'⟩ := hd
    by_cases h : k' = k
    · simp [dset, dget, h]
    · simp [dset, dget, h, ih]

theorem dset_dset_self (d : List (κ × α)) (k : κ) (v w : α) :
    dset (dset d k v) k w = dset d k w := by
  induction d with
  | nil => simp [dset]
  | cons hd tl ih =>
    obtain ⟨k', v'⟩ := hd
    by_cases h : k' = k
    · simp [dset, h]
    · simp [dset, h, ih]

theorem dmem_dset_self (d : List (κ × α)) (k : κ) (v : α) :
    dmem (dset d k v) k = true := by
  simp [dmem, dget_dset_self]

theorem mem_dkeys_of_dget (d : List (κ × α)) (k : κ) {v : α}
    (h : dget d k = some v) : k ∈ dkeys d := by
  induction d with
  | nil => simp [dget] at h
  | cons hd tl ih =>
    obtain ⟨k', v'⟩ := hd
    by_cases hk : k' = k
    · simp [dkeys, hk]
    · simp only [dget, hk, if_false] at h
      simp [dkeys] at ih ⊢
      exact Or.inr (ih h)

theorem mem_dkeys_dset_self (d : List (κ × α)) (k : κ) (v : α) :
    k ∈ dkeys (dset d k v) :=
  mem_dkeys_of_dget _ _ (dget_dset_self d k v)

theorem dget_dset_of_mem (d : List (κ × α)) (k : κ) (v : α) {w : α}
    (h : dget d k = some w) : dget (dset d k v) k = some v := by
  induction d with
  | nil => simp [dget] at h
  | cons hd tl ih =>
    obtain ⟨k', v'⟩ := hd
    by_cases hk : k' = k
    · simp [dset, dget, hk]
    · simp only [dget, hk, if_false] at h
      simp [dset, dget, hk, ih h]

theorem dkeys_dset_of_mem (d : List (κ × α)) (k : κ) (v : α)
    (h : dmem d k = true) : dkeys (dset d k v) = dkeys d := by
  induction d with
  | nil => simp [dmem, dget] at h
  | cons hd tl ih =>
    obtain ⟨k', v'⟩ := hd
    by_cases hk : k' = k
    · simp [dset, dkeys, hk]
    · simp only [dmem, dget, hk, if_false] at h
      simp [dset, dkeys, hk] at ih ⊢
      exact ih h

end Dict

/-! ## Tag values (`image_ref.py`)

A tag value as stored in `taggers[user_id][tag]`: Python leaves the raw
string, coerces to `bool` or to `int` in `add_tag`, and `remove_tag`
stores `None`. -/

/-- The dynamic type of a stored tag value: `str`, `bool`, `int` or
`None`. -/
inductive TagVal where
  | vStr (s : String)
  | vBool (b : Bool)
  | vInt (n : Nat)
  | vNone
  deriving DecidableEq, Repr

/-- A Python exception raised by the tag-store code: the explicit
`NotEnoughTaggersError`, or the `ValueError` produced by unpacking a
string whose length is not 2 in `for tag, value in self.taggers[user_id]`. -/
inductive PyErr where
  | notEnoughTaggers
  | valueError
  deriving DecidableEq, Repr

/-- The inner dict `taggers[user_id]`, mapping a tag name to its value. -/
abbrev UserTags := List (String × TagVal)

/-- The `taggers` dict: user id to that user's tag dict. -/
abbrev Taggers := List (String × UserTags)

/-- Python `content.lower()`, working on the character list so that it
reduces definitionally. -/
def pyLower (s : String) : String :=
  ⟨s.data.map Char.toLower⟩

/-- One or more decimal digits and nothing else: the source's
`re.fullmatch of d+` test in `Image.add_tag`. -/
def isDigitString (s : String) : Bool :=
  !s.data.isEmpty && s.data.all Char.isDigit

/-- Python `int(content)` on a digit string. -/
def natOfDigits (s : String) : Nat :=
  s.data.foldl (fun n c => 10 * n + (c.toNat - 48)) 0

/-- The value coercion inside `Image.add_tag`.  The source tests
`content.lower() == ('true' or 'false')`: in Python the parenthesized
expression short-circuits to the constant string `true`, so only the
text `true` (case-insensitively) is coerced, via `bool(content)`, which
is `True` for any non-empty string.  A digit-only string is coerced with
`int(content)`; every other string is stored unchanged. -/
def coerce_content (content : String) : TagVal :=
  if pyLower content = "true" then .vBool (!content.data.isEmpty)
  else if isDigitString content then .vInt (natOfDigits content)
  else .vStr content

/-- Embeds `Image.add_tag(user_id, tag, content)`: ensure `taggers[user_id]`
exists, then store the coerced content under `tag`.  (After the ensuring
step the user key is present, so the `getD` default is never read.) -/
def add_tag (taggers : Taggers) (user_id tag content : String) : Taggers :=
  let taggers := if dmem taggers user_id then taggers else dset taggers user_id []
  dset taggers user_id (dset ((dget taggers user_id).getD []) tag (coerce_content content))

/-- Embeds `Image.remove_tag(user_id, tag)`: ensure `taggers[user_id]` exists,
then store `None` under `tag`. -/
def remove_tag (taggers : Taggers) (user_id tag : String) : Taggers :=
  let taggers := if dmem taggers user_id then taggers else dset taggers user_id []
  dset taggers user_id (dset ((dget taggers user_id).getD []) tag .vNone)

/-- Embeds `Image.update_tag`, which is literally `Image.add_tag`. -/
def update_tag (taggers : Taggers) (user_id tag content : String) : Taggers :=
  add_tag taggers user_id tag content

/-- Embeds `Image.get_taggers()`: the keys of the `taggers` dict. -/
def get_taggers (taggers : Taggers) : List String :=
  dkeys taggers

/-- The read `taggers[user_id][tag]` (`none` when either subscript would
raise a `KeyError`). -/
def read_tag (taggers : Taggers) (user_id tag : String) : Option TagVal :=
  (dget taggers user_id).bind fun inner => dget inner tag

/-! ## `Image._sum_tag_values_by_users` and `Image.all_user_tags_equal`

The source iterates `for tag, value in self.taggers[user_id]`.  Iterating
a dict yields its keys, so each tag-name string is unpacked into the two
variables: a string of length 2 splits into two single-character strings
(and then `type(value) is not str` is false, so the body is skipped);
any other length raises `ValueError`. -/

/-- The per-value counters `tag_totals[tag][value]`. -/
abbrev TagTotals := List (String × List (String × Nat))

/-- The inner loop of `_sum_tag_values_by_users` over the keys of one
user's tag dict. -/
def sum_inner_keys (tag_totals : TagTotals) : List String → Except PyErr TagTotals
  | [] => .ok tag_totals
  | k :: rest =>
    match k.data with
    | [_, _] =>
      -- tag and value both unpack to single-character strings, so the
      -- `type(value) is not str` guard fails and the counting body is skipped
      sum_inner_keys tag_totals rest
    | _ => .error .valueError

/-- The outer loop of `_sum_tag_values_by_users` over the taggers: an
error from one user's inner loop propagates out of the call. -/
def sum_users (tag_totals : TagTotals) : Taggers → Except PyErr TagTotals
  | [] => .ok tag_totals
  | (_, inner) :: rest =>
    match sum_inner_keys tag_totals (dkeys inner) with
    | .ok tag_totals => sum_users tag_totals rest
    | .error e => .error e

/-- Embeds `Image._sum_tag_values_by_users()`. -/
def sum_tag_values_by_users (taggers : Taggers) : Except PyErr TagTotals :=
  sum_users [] taggers

/-- The consensus loop of `all_user_tags_equal`: return `False` as soon
as a tag has more than 2 distinct counted values (the source compares
with `> 2`), else `True`. -/
def agree_loop : TagTotals → Bool
  | [] => true
  | (_, inner) :: rest => if (dkeys inner).length > 2 then false else agree_loop rest

/-- Embeds `Image.all_user_tags_equal()`: raise `NotEnoughTaggersError` below 2
taggers, otherwise run the summary and the consensus loop. -/
def all_user_tags_equal (taggers : Taggers) : Except PyErr Bool :=
  if (get_taggers taggers).length < 2 then .error .notEnoughTaggers
  else
    match sum_tag_values_by_users taggers with
    | .error e => .error e
    | .ok tag_totals => .ok (agree_loop tag_totals)

/-! ## Object identity: shared class attributes and shallow copies

`skippers` and `taggers` are declared as class attributes of `Image`
(`skippers: Set[str] = set()`, `taggers: Dict[str, Dict] = dict()`), so
every instance that has not rebound them resolves the same two objects,
and `__init__` only assigns the two path fields.  `save` rebinds
`self.skippers` / `self.taggers` to shallow `.copy()`s: a fresh outer
dict whose values still alias the per-user inner dicts.  To express this
aliasing the inner dicts live in a heap addressed by `Ref`, and the
outer `taggers` dict maps a user id to a `Ref`. -/

abbrev Ref := Nat

/-- The heap of inner per-user tag dicts, with a fresh-address counter. -/
structure Heap where
  cells : List (Ref × UserTags)
  next : Ref
  deriving DecidableEq, Repr

/-- The interpreter state outside any one instance: the heap and the two
class-level containers of `Image`. -/
structure World where
  heap : Heap
  classTaggers : List (String × Ref)
  classSkippers : List String
  deriving DecidableEq, Repr

/-- One `Image` instance: the two path fields set by `__init__`, and the
instance-attribute bindings of `skippers` / `taggers`, which are `none`
until `save` rebinds them. -/
structure ImageObj where
  original_size_path : String
  small_size_path : String
  ownTaggers : Option (List (String × Ref))
  ownSkippers : Option (List String)
  deriving DecidableEq, Repr

/-- Embeds `Image.__init__(original_size_path, small_size_path)`: assigns the
two path fields and touches nothing else, so the world is returned
unchanged. -/
def image_init (w : World) (original_size_path small_size_path : String) :
    World × ImageObj :=
  (w, ⟨original_size_path, small_size_path, none, none⟩)

/-- Python attribute lookup for `self.taggers`: the instance binding if
present, else the class attribute. -/
def resolve_taggers (w : World) (self : ImageObj) : List (String × Ref) :=
  self.ownTaggers.getD w.classTaggers

/-- Python attribute lookup for `self.skippers`. -/
def resolve_skippers (w : World) (self : ImageObj) : List String :=
  self.ownSkippers.getD w.classSkippers

/-- Writing the mutated outer dict back to the object it was resolved
from: the instance binding when the instance has one, else the class
attribute (which every non-rebound instance aliases). -/
def store_taggers (w : World) (self : ImageObj) (outer : List (String × Ref)) :
    World × ImageObj :=
  match self.ownTaggers with
  | some _ => (w, { self with ownTaggers := some outer })
  | none => ({ w with classTaggers := outer }, self)

/-- Embeds `Image.add_tag` on an instance: ensure `taggers[user_id]` exists
(allocating a fresh inner dict when absent), then mutate that inner dict
in the heap with the coerced content. -/
def image_add_tag (w : World) (self : ImageObj) (user_id tag content : String) :
    World × ImageObj :=
  let outer := resolve_taggers w self
  let (h, outer) :=
    if dmem outer user_id then (w.heap, outer)
    else (⟨dset w.heap.cells w.heap.next [], w.heap.next + 1⟩,
          dset outer user_id w.heap.next)
  let r := (dget outer user_id).getD 0
  let inner := (dget h.cells r).getD []
  store_taggers { w with heap := { h with cells := dset h.cells r (dset inner tag (coerce_content content)) } }
    self outer

/-- Embeds `Image.remove_tag` on an instance: same shape, storing `None`. -/
def image_remove_tag (w : World) (self : ImageObj) (user_id tag : String) :
    World × ImageObj :=
  let outer := resolve_taggers w self
  let (h, outer) :=
    if dmem outer user_id then (w.heap, outer)
    else (⟨dset w.heap.cells w.heap.next [], w.heap.next + 1⟩,
          dset outer user_id w.heap.next)
  let r := (dget outer user_id).getD 0
  let inner := (dget h.cells r).getD []
  store_taggers { w with heap := { h with cells := dset h.cells r (dset inner tag .vNone) } }
    self outer

/-- Embeds `Image.get_taggers()` on an instance: the keys of whichever
`taggers` dict the instance resolves. -/
def image_get_taggers (w : World) (self : ImageObj) : List String :=
  dkeys (resolve_taggers w self)

/-- Embeds `Image.save()`: rebinds `self.skippers` and `self.taggers` to
shallow copies.  The outer mapping is copied (so the binding is
decoupled from the class attribute), but the values are the same `Ref`s:
the inner per-user dicts stay shared with the originals. -/
def image_save (w : World) (self : ImageObj) : ImageObj :=
  { self with
    ownSkippers := some (resolve_skippers w self),
    ownTaggers := some (resolve_taggers w self) }

/-- The state an instance would serialize: each user id of its resolved
`taggers` dict paired with the current heap contents of that user's
inner dict. -/
def snapshot_taggers (w : World) (self : ImageObj) : List (String × UserTags) :=
  (resolve_taggers w self).map fun p => (p.1, (dget w.heap.cells p.2).getD [])

/-! ## `ConnectionHandler.py`

`generate_storm_list` rebuilds `storm_list` from the regex re_search of
the fetched index page and records the pattern in
`storm_list_last_pattern`; `get_storm_list` only calls it when the
requested pattern differs from the recorded one.  The HTTP response and
the case-insensitive `re.search` are external inputs, so the embedding
is parameterized by the list of `findall` tuples and by the match
predicate; a call counter makes the number of `generate_storm_list`
invocations observable. -/

/-- One storm parsed from the index page. -/
structure Storm where
  storm_url : String
  storm_id : String
  storm_name : String
  storm_year : String
  deriving DecidableEq, Repr

/-- The mutable state of a `ConnectionHandler`: the cached list, the
pattern it was built from (`none` is the initial class-level `None`),
and a ghost counter of `generate_storm_list` calls. -/
structure CHState where
  storm_list : List Storm
  storm_list_last_pattern : Option String
  gen_calls : Nat
  deriving DecidableEq, Repr

/-- Embeds `ConnectionHandler.generate_storm_list(search_re)`: clear the list,
record the pattern, and keep every `(url, id, name, year)` tuple whose
id, name or year re_search the pattern. -/
def generate_storm_list (re_search : String → String → Bool)
    (found : List (String × String × String × String))
    (st : CHState) (search_re : String) : CHState :=
  { storm_list :=
      (found.filter fun q =>
        re_search search_re q.2.1 || re_search search_re q.2.2.1 || re_search search_re q.2.2.2).map
        fun q => ⟨q.1, q.2.1, q.2.2.1, q.2.2.2⟩,
    storm_list_last_pattern := some search_re,
    gen_calls := st.gen_calls + 1 }

/-- Embeds `ConnectionHandler.get_storm_list(search_re)`: regenerate only when
the pattern differs from the recorded one, then return the cached
list. -/
def get_storm_list (re_search : String → String → Bool)
    (found : List (String × String × String × String))
    (st : CHState) (search_re : String) : CHState × List Storm :=
  if st.storm_list_last_pattern ≠ some search_re then
    let st := generate_storm_list re_search found st search_re
    (st, st.storm_list)
  else (st, st.storm_list)

/-! ## `Tar.py`

`Tar.download_url` assigns `self.tar_file_path` and then, only under
`if not overwrite:`, either reports an existing file or downloads the
archive.  The filesystem is embedded as the set of existing paths plus
the log of performed retrievals. -/

/-- The filesystem effects visible to `download_url`: which paths exist,
and which `(url, destination)` retrievals were performed. -/
structure FS where
  files : List String
  downloads : List (String × String)
  deriving DecidableEq, Repr

/-- A `Tar` object; `tar_file_path` is unset until `download_url`
assigns it. -/
structure TarObj where
  tar_url : String
  tar_date : String
  tar_label : String
  tar_file_name : String
  tar_file_path : Option String
  deriving DecidableEq, Repr

/-- Embeds `Tar.download_url(output_file_dir_path, overwrite)`. -/
def download_url (fs : FS) (tar : TarObj)
    (output_file_dir_path : String) (overwrite : Bool) : FS × TarObj :=
  let p := output_file_dir_path ++ tar.tar_file_name ++ ".tar"
  let tar := { tar with tar_file_path := some p }
  if !overwrite then
    if fs.files.contains p then
      (fs, tar)  -- only prints that the file already exists
    else
      ({ files := p :: fs.files, downloads := (tar.tar_url, p) :: fs.downloads }, tar)
  else (fs, tar)

/-! ## Supporting lemmas about the summary loops -/

theorem sum_inner_keys_ne_notEnough (acc : TagTotals) (ks : List String) :
    sum_inner_keys acc ks ≠ Except.error PyErr.notEnoughTaggers := by
  induction ks generalizing acc with
  | nil => simp [sum_inner_keys]
  | cons k rest ih =>
    unfold sum_inner_keys
    rcases k.data with _ | ⟨c1, _ | ⟨c2, _ | ⟨c3, t⟩⟩⟩ <;> simp_all

theorem sum_users_ne_notEnough (tg : Taggers) (acc : TagTotals) :
    sum_users acc tg ≠ Except.error PyErr.notEnoughTaggers := by
  induction tg generalizing acc with
  | nil => simp [sum_users]
  | cons hd tl ih =>
    obtain ⟨u, inner⟩ := hd
    unfold sum_users
    cases h : sum_inner_keys acc (dkeys inner) with
    | ok acc2 => simpa [h] using ih acc2
    | error e =>
      have hne := sum_inner_keys_ne_notEnough acc (dkeys inner)
      cases e with
      | notEnoughTaggers => exact absurd h hne
      | valueError => simp [h]


/-! ## Claim theorems for `image_ref.py` -/

/-- C2: the claim states that a string case-insensitively equal to
"false" normalizes to Boolean(false).  In the source,
`('true' or 'false')` short-circuits to `'true'`, so "false" never
matches the boolean branch, fails the digit branch, and is stored as the
unchanged text "false".  This theorem evaluates the embedded coercion at
the failing input. -/
theorem coerce_content_false_stays_text :
    coerce_content "false" = TagVal.vStr "false" ∧
    coerce_content "false" ≠ TagVal.vBool false := by
  decide

/-- C3: the claim states that `_sum_tag_values_by_users` groups the
non-Text values of each tag and counts the taggers per value.  In the
source, `for tag, value in self.taggers[user_id]` iterates the keys of
the inner dict and unpacks each key string, so a single tagger holding
the tag "damage" = True makes the call raise `ValueError` ("damage" has
length 6) instead of returning the counts. -/
theorem sum_tag_values_raises_on_damage :
    sum_tag_values_by_users [("A", [("damage", TagVal.vBool true)])] =
      Except.error PyErr.valueError := by
  rfl

/-- C1: the claim states that with taggers A ("damage" = "true") and
B ("damage" = "false") the consensus query returns false.  On the
source, A's value is coerced to True and B's stays the text "false",
and `all_user_tags_equal` then raises `ValueError` inside
`_sum_tag_values_by_users` (unpacking the key "damage") instead of
returning false. -/
theorem all_user_tags_equal_damage_scenario :
    all_user_tags_equal (add_tag (add_tag [] "A" "damage" "true") "B" "damage" "false") =
      Except.error PyErr.valueError := by
  rfl

/-- C4: `all_user_tags_equal` raises `NotEnoughTaggersError` exactly
when the image has fewer than 2 tagger ids; with 2 or more taggers that
error is never the result.  (The embedded function is pure — the source
raises before touching any state, so the image state is unchanged.) -/
theorem all_user_tags_equal_notEnough_iff (tg : Taggers) :
    all_user_tags_equal tg = Except.error PyErr.notEnoughTaggers ↔
      (get_taggers tg).length < 2 := by
  unfold all_user_tags_equal
  by_cases h : (get_taggers tg).length < 2
  · simp [h]
  · simp only [h, if_false, iff_false]
    cases hs : sum_tag_values_by_users tg with
    | ok tt => simp [hs]
    | error e =>
      have hne := sum_users_ne_notEnough tg []
      cases e with
      | notEnoughTaggers => exact absurd hs hne
      | valueError => simp [hs]

/-- C6: `add_tag` creates `taggers[user_id]` when absent and stores the
normalized content, so an immediate read of `taggers[u][t]` yields the
coerced value, and calling `add_tag` twice with the same arguments
yields the same state as calling it once. -/
theorem add_tag_read_and_idempotent (tg : Taggers) (u t c : String) :
    read_tag (add_tag tg u t c) u t = some (coerce_content c) ∧
    add_tag (add_tag tg u t c) u t c = add_tag tg u t c := by
  unfold add_tag read_tag
  constructor
  · simp [dget_dset_self]
  · simp [dmem_dset_self, dget_dset_self, dset_dset_self]

/-- C7: `remove_tag` creates `taggers[user_id]` when absent and stores
the `None` tombstone without deleting the entry, so a subsequent read of
`taggers[u][t]` yields the tombstone — even when `add_tag` was never
called for that pair — and `u` is among the tagger ids. -/
theorem remove_tag_tombstone (tg : Taggers) (u t : String) :
    read_tag (remove_tag tg u t) u t = some TagVal.vNone ∧
    u ∈ get_taggers (remove_tag tg u t) := by
  unfold remove_tag read_tag get_taggers
  constructor
  · simp [dget_dset_self]
  · exact mem_dkeys_dset_self _ _ _

/-! ## Supporting lemmas about the instance-level operations -/

theorem dget_map_value {κ α β : Type} [DecidableEq κ] (g : α → β)
    (d : List (κ × α)) (k : κ) :
    dget (d.map fun p => (p.1, g p.2)) k = (dget d k).map g := by
  induction d with
  | nil => simp [dget]
  | cons hd tl ih =>
    obtain ⟨k', v'⟩ := hd
    by_cases h : k' = k
    · simp [dget, h]
    · simp [dget, h, ih]

theorem store_taggers_of_none (w : World) (self : ImageObj)
    (h : self.ownTaggers = none) (outer : List (String × Ref)) :
    store_taggers w self outer = ({ w with classTaggers := outer }, self) := by
  unfold store_taggers
  rw [h]

theorem image_add_tag_classTaggers_of_none (w : World) (self : ImageObj)
    (h : self.ownTaggers = none) (u t c : String) :
    (image_add_tag w self u t c).1.classTaggers =
      if dmem w.classTaggers u then w.classTaggers
      else dset w.classTaggers u w.heap.next := by
  unfold image_add_tag resolve_taggers
  rw [h]
  cases hmem : dmem w.classTaggers u with
  | false => simp [hmem, store_taggers_of_none, h]
  | true => simp [hmem, store_taggers_of_none, h]

theorem image_remove_tag_classTaggers_of_none (w : World) (self : ImageObj)
    (h : self.ownTaggers = none) (u t : String) :
    (image_remove_tag w self u t).1.classTaggers =
      if dmem w.classTaggers u then w.classTaggers
      else dset w.classTaggers u w.heap.next := by
  unfold image_remove_tag resolve_taggers
  rw [h]
  cases hmem : dmem w.classTaggers u with
  | false => simp [hmem, store_taggers_of_none, h]
  | true => simp [hmem, store_taggers_of_none, h]

theorem image_add_tag_existing_user (w : World) (j : ImageObj)
    (hj : j.ownTaggers = none) (u t c : String) (r : Ref)
    (hu : dget w.classTaggers u = some r) :
    image_add_tag w j u t c =
      ({ w with heap := { w.heap with
          cells := dset w.heap.cells r
            (dset ((dget w.heap.cells r).getD []) t (coerce_content c)) } }, j) := by
  have hres_j : resolve_taggers w j = w.classTaggers := by
    unfold resolve_taggers; rw [hj]; rfl
  have hmem : dmem w.classTaggers u = true := by
    unfold dmem; rw [hu]; rfl
  unfold image_add_tag
  rw [hres_j]
  simp [hmem, hu, store_taggers_of_none, hj]

theorem mem_dkeys_of_dmem {d : List (String × Ref)} {u : String}
    (h : dmem d u = true) : u ∈ dkeys d := by
  obtain ⟨r, hr⟩ := Option.isSome_iff_exists.mp h
  exact mem_dkeys_of_dget _ _ hr

theorem dget_snapshot_taggers (w : World) (self : ImageObj) (u : String) :
    dget (snapshot_taggers w self) u =
      (dget (resolve_taggers w self) u).map fun r => (dget w.heap.cells r).getD [] :=
  dget_map_value (fun r => (dget w.heap.cells r).getD []) (resolve_taggers w self) u

/-! ## Claim theorems for the shared class attributes and `save` -/

/-- C5: `skippers` and `taggers` are class attributes of `Image`, so
independently constructed instances share them: after `add_tag` or
`remove_tag` through one instance, `get_taggers()` of the other also
contains the user, and `__init__` of a new instance leaves both
class-level containers untouched. -/
theorem class_containers_shared (w : World) (o1 s1 o2 s2 u t c : String) :
    (image_init w o2 s2).1 = w ∧
    u ∈ image_get_taggers (image_add_tag w (image_init w o1 s1).2 u t c).1
        (image_init w o2 s2).2 ∧
    u ∈ image_get_taggers (image_remove_tag w (image_init w o1 s1).2 u t).1
        (image_init w o2 s2).2 := by
  refine ⟨rfl, ?_, ?_⟩
  · show u ∈ image_get_taggers (image_add_tag w ⟨o1, s1, none, none⟩ u t c).1
        ⟨o2, s2, none, none⟩
    unfold image_get_taggers resolve_taggers
    rw [image_add_tag_classTaggers_of_none w ⟨o1, s1, none, none⟩ rfl]
    cases hmem : dmem w.classTaggers u with
    | true => simpa using mem_dkeys_of_dmem hmem
    | false => simpa using mem_dkeys_dset_self w.classTaggers u w.heap.next
  · show u ∈ image_get_taggers (image_remove_tag w ⟨o1, s1, none, none⟩ u t).1
        ⟨o2, s2, none, none⟩
    unfold image_get_taggers resolve_taggers
    rw [image_remove_tag_classTaggers_of_none w ⟨o1, s1, none, none⟩ rfl]
    cases hmem : dmem w.classTaggers u with
    | true => simpa using mem_dkeys_of_dmem hmem
    | false => simpa using mem_dkeys_dset_self w.classTaggers u w.heap.next

/-- The empty interpreter state: fresh heap and empty class containers,
as at class-body evaluation time. -/
def cW0 : World := ⟨⟨[], 0⟩, [], []⟩

/-- A first image instance, as built by `__init__`. -/
def cImg : ImageObj := (image_init cW0 "img" "small").2

/-- The world after user A tags `cImg` with "damage" = "true". -/
def cW1 : World := (image_add_tag cW0 cImg "A" "damage" "true").1

/-- The instance after `save()`: `skippers` and `taggers` rebound to
shallow copies. -/
def cSaved : ImageObj := image_save cW1 cImg

/-- A second, independently constructed image instance. -/
def cImg2 : ImageObj := (image_init cW1 "img2" "small2").2

/-- The world after user A also tags the second image with
"flood" = "5", mutating the inner dict that the saved snapshot still
aliases. -/
def cW2 : World := (image_add_tag cW1 cImg2 "A" "flood" "5").1

/-- C8 counterexample: the claim states that after `save` no mutation of
the shared containers — including mutations through the aliased inner
per-user dicts — is visible in the persisted snapshot.  `save` only
takes shallow `.copy()`s, so tagging user A on another image after the
save changes the saved snapshot: its serialized state differs and now
contains the new "flood" = 5 entry. -/
theorem image_save_not_deep_counterexample :
    snapshot_taggers cW2 cSaved ≠ snapshot_taggers cW1 cSaved ∧
    dget ((dget (snapshot_taggers cW2 cSaved) "A").getD []) "flood" =
      some (TagVal.vInt 5) := by
  decide

/-- C8 as amended: `save` rebinds `skippers` and `taggers` to shallow
copies, so additions of new top-level entries to the shared class
containers after the save are not visible in the snapshot, but the inner
per-user tag dicts remain aliased, so a later tag mutation for an
already-present user is visible in the snapshot. -/
theorem image_save_shallow_copy (w : World) (self j : ImageObj)
    (u uNew t tNew c cNew : String) (r : Ref)
    (hself : self.ownTaggers = none) (hj : j.ownTaggers = none)
    (hu : dget w.classTaggers u = some r)
    (hNew : dmem w.classTaggers uNew = false) :
    (dmem ((image_add_tag w j uNew tNew cNew).1.classTaggers) uNew = true ∧
     dmem ((image_save w self).ownTaggers.getD []) uNew = false) ∧
    dget ((dget (snapshot_taggers (image_add_tag w j u t c).1 (image_save w self)) u).getD [])
        t = some (coerce_content c) := by
  have hres_self : resolve_taggers w self = w.classTaggers := by
    unfold resolve_taggers; rw [hself]; rfl
  have hmem_u : dmem w.classTaggers u = true := by
    unfold dmem; rw [hu]; rfl
  refine ⟨⟨?_, ?_⟩, ?_⟩
  · rw [image_add_tag_classTaggers_of_none w j hj]
    rw [hNew]
    simp only [Bool.false_eq_true, if_false]
    exact dmem_dset_self w.classTaggers uNew w.heap.next
  · show dmem ((image_save w self).ownTaggers.getD []) uNew = false
    unfold image_save
    simp only [Option.getD_some]
    rw [hres_self]
    exact hNew
  · rw [image_add_tag_existing_user w j hj u t c r hu]
    rw [dget_snapshot_taggers]
    have hres_saved : ∀ w2 : World, resolve_taggers w2 (image_save w self) = w.classTaggers := by
      intro w2
      unfold resolve_taggers image_save
      simp only [Option.getD_some]
      exact hres_self
    rw [hres_saved, hu]
    simp only [Option.map_some, Option.getD_some]
    show dget ((dget (dset w.heap.cells r _) r).getD []) t = some (coerce_content c)
    rw [dget_dset_self]
    simp only [Option.getD_some]
    exact dget_dset_self _ t (coerce_content c)

/-- C8 witness: the amended theorem applied at the concrete world
`cW1`, the saved instance, a fresh second instance, the existing user A
and the new user B. -/
theorem image_save_shallow_copy_witness :
    (cImg.ownTaggers = none ∧ cImg2.ownTaggers = none ∧
     dget cW1.classTaggers "A" = some 0 ∧ dmem cW1.classTaggers "B" = false) ∧
    ((dmem ((image_add_tag cW1 cImg2 "B" "x" "1").1.classTaggers) "B" = true ∧
      dmem ((image_save cW1 cImg).ownTaggers.getD []) "B" = false) ∧
     dget ((dget (snapshot_taggers (image_add_tag cW1 cImg2 "A" "flood" "5").1
        (image_save cW1 cImg)) "A").getD []) "flood" = some (coerce_content "5")) :=
  ⟨⟨by decide, by decide, by decide, by decide⟩,
   image_save_shallow_copy cW1 cImg cImg2 "A" "B" "flood" "x" "5" "1" 0
     (by decide) (by decide) (by decide) (by decide)⟩

/-! ## Supporting lemmas about the catalog listing -/

theorem get_storm_list_cached (re_search : String → String → Bool)
    (found : List (String × String × String × String)) (st : CHState) (p : String)
    (h : st.storm_list_last_pattern = some p) :
    get_storm_list re_search found st p = (st, st.storm_list) := by
  unfold get_storm_list
  simp [h]

theorem get_storm_list_fresh (re_search : String → String → Bool)
    (found : List (String × String × String × String)) (st : CHState) (p : String)
    (h : st.storm_list_last_pattern ≠ some p) :
    get_storm_list re_search found st p =
      (generate_storm_list re_search found st p,
       (generate_storm_list re_search found st p).storm_list) := by
  unfold get_storm_list
  simp [h]

theorem get_storm_list_last_pattern (re_search : String → String → Bool)
    (found : List (String × String × String × String)) (st : CHState) (p : String) :
    (get_storm_list re_search found st p).1.storm_list_last_pattern = some p := by
  by_cases h : st.storm_list_last_pattern = some p
  · rw [get_storm_list_cached re_search found st p h]
    exact h
  · rw [get_storm_list_fresh re_search found st p h]
    rfl

/-! ## Claim theorems for `ConnectionHandler.py` and `Tar.py` -/

/-- C9: `get_storm_list` memoizes on the exact filter text: after one
call with pattern `p`, a second call with the same `p` performs no
further `generate_storm_list` call and returns the cached list, the two
calls together resolve at most once, and a call with a different pattern
resolves again. -/
theorem get_storm_list_memoizes (re_search : String → String → Bool)
    (found : List (String × String × String × String))
    (st : CHState) (p pOther : String) (h : pOther ≠ p) :
    (get_storm_list re_search found (get_storm_list re_search found st p).1 p).1.gen_calls =
      (get_storm_list re_search found st p).1.gen_calls ∧
    (get_storm_list re_search found (get_storm_list re_search found st p).1 p).2 =
      (get_storm_list re_search found st p).2 ∧
    (get_storm_list re_search found st p).1.gen_calls ≤ st.gen_calls + 1 ∧
    (get_storm_list re_search found (get_storm_list re_search found st p).1 pOther).1.gen_calls =
      (get_storm_list re_search found st p).1.gen_calls + 1 := by
  have hlast := get_storm_list_last_pattern re_search found st p
  have hsame :
      get_storm_list re_search found (get_storm_list re_search found st p).1 p =
        ((get_storm_list re_search found st p).1,
         (get_storm_list re_search found st p).1.storm_list) :=
    get_storm_list_cached re_search found _ p hlast
  have hsnd : (get_storm_list re_search found st p).2 =
      (get_storm_list re_search found st p).1.storm_list := by
    by_cases hc : st.storm_list_last_pattern = some p
    · rw [get_storm_list_cached re_search found st p hc]
    · rw [get_storm_list_fresh re_search found st p hc]
  refine ⟨by rw [hsame], by rw [hsame, hsnd], ?_, ?_⟩
  · by_cases hc : st.storm_list_last_pattern = some p
    · rw [get_storm_list_cached re_search found st p hc]
      exact Nat.le_succ _
    · rw [get_storm_list_fresh re_search found st p hc]
      exact Nat.le_refl _
  · have hdiff : (get_storm_list re_search found st p).1.storm_list_last_pattern ≠
        some pOther := by
      rw [hlast]
      intro hcontra
      exact h (Option.some.inj hcontra).symm
    rw [get_storm_list_fresh re_search found _ pOther hdiff]
    rfl

/-- C9 witness: the memoization theorem at a concrete handler state,
the constant-true match predicate, and the patterns "a" and "b". -/
theorem get_storm_list_memoizes_witness :
    ("b" : String) ≠ "a" ∧
    ((get_storm_list (fun _ _ => true) [] (get_storm_list (fun _ _ => true) [] ⟨[], none, 0⟩ "a").1 "a").1.gen_calls =
      (get_storm_list (fun _ _ => true) [] ⟨[], none, 0⟩ "a").1.gen_calls ∧
     (get_storm_list (fun _ _ => true) [] (get_storm_list (fun _ _ => true) [] ⟨[], none, 0⟩ "a").1 "a").2 =
      (get_storm_list (fun _ _ => true) [] ⟨[], none, 0⟩ "a").2 ∧
     (get_storm_list (fun _ _ => true) [] (⟨[], none, 0⟩ : CHState) "a").1.gen_calls ≤ (⟨[], none, 0⟩ : CHState).gen_calls + 1 ∧
     (get_storm_list (fun _ _ => true) [] (get_storm_list (fun _ _ => true) [] ⟨[], none, 0⟩ "a").1 "b").1.gen_calls =
      (get_storm_list (fun _ _ => true) [] ⟨[], none, 0⟩ "a").1.gen_calls + 1) :=
  ⟨by decide, get_storm_list_memoizes (fun _ _ => true) [] ⟨[], none, 0⟩ "a" "b" (by decide)⟩

/-- C10: `Tar.download_url` with `overwrite = True` performs no
existence check and no retrieval — both live inside the
`if not overwrite:` branch — so the filesystem is returned untouched and
the only effect is the assignment of `tar_file_path`. -/
theorem download_url_overwrite_no_effect (fs : FS) (tar : TarObj)
    (output_file_dir_path : String) :
    download_url fs tar output_file_dir_path true =
      (fs, { tar with
        tar_file_path := some (output_file_dir_path ++ tar.tar_file_name ++ ".tar") }) := by
  rfl

end PsiCollect
